import Mathlib

/-!
# Verification of the K-band front-end simulator (`K2_simulator.py`, `__init__.py`)

Shallow embedding of the `K_FE` front-end model, its `FEServer.set_WBDC`
legacy option-code dispatcher, and the `K_4ch.Channel.PowerMeter` client.
Python exceptions are embedded as an explicit `PyErr` error type; methods
that can raise return `Except PyErr _`, and mutating methods return the
post-call state as well (a Python exception can leave earlier field
assignments in place).

Machine reals are embedded as `ℚ` (the Python floats involved are exact
decimal literals and the claims are about exact arithmetic relations).
The external `Radio_Astronomy.gain` function is calibration data from a
separate repository; every definition that needs it takes it as an explicit
parameter `g : ℚ → ℚ`.
-/

namespace K2Sim

/-- Python runtime errors raised by the embedded methods. -/
inductive PyErr where
  /-- `KeyError` from a dictionary lookup, carrying the missing key. -/
  | keyError (key : Int)
  /-- `AttributeError`, carrying the missing attribute's name. -/
  | attributeError (attr : String)
  /-- `TypeError`, carrying the message. -/
  | typeError (msg : String)
  /-- `IndexError` from list indexing. -/
  | indexError
deriving DecidableEq, Repr

/-- The spec's `InvalidFeedId` error is, in the code, the `KeyError` raised
by looking an invalid feed ID up in the `self.feed` dictionary. -/
def InvalidFeedId (f : Int) : PyErr := .keyError f

instance {ε α : Type _} [DecidableEq ε] [DecidableEq α] :
    DecidableEq (Except ε α) := fun a b =>
  match a, b with
  | .ok x, .ok y =>
      if h : x = y then .isTrue (by rw [h]) else .isFalse (by simp [h])
  | .error x, .error y =>
      if h : x = y then .isTrue (by rw [h]) else .isFalse (by simp [h])
  | .ok _, .error _ => .isFalse (by simp)
  | .error _, .ok _ => .isFalse (by simp)

/-! ## Module-level calibration constants (`K2_simulator.py` lines 105-119) -/

/-- Polarization labels, the keys of each feed's `chan` dictionary. -/
inductive Pol where
  | E
  | H
deriving DecidableEq, Repr

/-- `T_CBG = 2.73` K. -/
def T_CBG : ℚ := 2.73

/-- `T_rs = 2` K, blockage, spillover, ohmic losses. -/
def T_rs : ℚ := 2

/-- `T_atm = 9` K, median atmospheric brightness. -/
def T_atm : ℚ := 9

/-- `T_amb = 273.15 + 20` K, inside feed cone. -/
def T_amb : ℚ := 273.15 + 20

/-- The `T_rx` dictionary keyed by feed number and polarization; looking up
any other feed number raises `KeyError` (`T_rx[feed]`). -/
def T_rx (feed : Int) (pol : Pol) : Except PyErr ℚ :=
  if feed = 1 then
    .ok (match pol with | .E => 19.65 | .H => 19.75)
  else if feed = 2 then
    .ok (match pol with | .E => 22.27 | .H => 20.55)
  else .error (.keyError feed)

/-- `T_sky(feed, pol) = T_CBG + T_rx[feed][pol] + T_rs + T_atm`. -/
def T_sky (feed : Int) (pol : Pol) : Except PyErr ℚ := do
  let trx ← T_rx feed pol
  return T_CBG + trx + T_rs + T_atm

/-- `T_load(feed, pol) = T_rx[feed][pol] + T_amb`. -/
def T_load (feed : Int) (pol : Pol) : Except PyErr ℚ := do
  let trx ← T_rx feed pol
  return trx + T_amb

/-- The `tsys_factor` dictionary: divides `T_op` to give power in W. -/
def tsys_factor (feed : Int) (pol : Pol) : Except PyErr ℚ :=
  if feed = 1 then
    .ok (match pol with | .E => 999883083 | .H => 840000000)
  else if feed = 2 then
    .ok (match pol with | .E => 690000000 | .H => 705797017)
  else .error (.keyError feed)

/-! ## Entity state -/

/-- `K_FE.Feed.AmbientLoad`: `state = 0` (out) and `temp = 320` K at
construction. -/
structure AmbientLoad where
  state : Nat
  temp : ℚ
deriving DecidableEq, Repr

/-- `AmbientLoad.set_state`: unconditional write. -/
def AmbientLoad.set_state (l : AmbientLoad) (state : Nat) : AmbientLoad :=
  { l with state := state }

/-- `AmbientLoad.get_state`: pure read. -/
def AmbientLoad.get_state (l : AmbientLoad) : Nat := l.state

/-- The `load` attribute of a `Feed`.  It normally holds an `AmbientLoad`
object, but `K_FE.set_feed` assigns the plain integer `0` or `1` to it
(`self.feed[feed].load = 0`), so the slot is a sum. -/
inductive LoadSlot where
  | obj (l : AmbientLoad)
  | intval (n : Nat)
deriving DecidableEq, Repr

/-- `load.set_state(s)` through a `LoadSlot`: an `int` has no `set_state`
attribute. -/
def LoadSlot.set_state (slot : LoadSlot) (s : Nat) : Except PyErr LoadSlot :=
  match slot with
  | .obj l => .ok (.obj (l.set_state s))
  | .intval _ => .error (.attributeError "set_state")

/-- `load.get_state()` through a `LoadSlot`. -/
def LoadSlot.get_state (slot : LoadSlot) : Except PyErr Nat :=
  match slot with
  | .obj l => .ok l.get_state
  | .intval _ => .error (.attributeError "get_state")

/-- `K_FE.Feed.Channel`: one polarization output; holds the power-meter
mode set by `set_PM_mode`. -/
structure ChannelSt where
  PM_mode : String
deriving DecidableEq, Repr

/-- `Channel.set_PM_mode(mode)`: unconditional write. -/
def ChannelSt.set_PM_mode (_c : ChannelSt) (mode : String) : ChannelSt :=
  { PM_mode := mode }

/-- `K_FE.Feed`: number, load, two channels (the `chan` dictionary with
keys `"E"` and `"H"`), and the preamp bias state. -/
structure FeedSt where
  number : Int
  load : LoadSlot
  chanE : ChannelSt
  chanH : ChannelSt
  preamp_state : Nat
deriving DecidableEq, Repr

/-- `Feed.set_preamp_bias(state)`: `preamp state 0 is bias off, state 1 is
bias on`; unconditional write of `self.preamp_state`. -/
def FeedSt.set_preamp_bias (fd : FeedSt) (state : Nat) : FeedSt :=
  { fd with preamp_state := state }

/-- Channel lookup `feed.chan[pol]`. -/
def FeedSt.chan (fd : FeedSt) (pol : Pol) : ChannelSt :=
  match pol with
  | .E => fd.chanE
  | .H => fd.chanH

/-- Channel update `feed.chan[pol] = c`. -/
def FeedSt.setChan (fd : FeedSt) (pol : Pol) (c : ChannelSt) : FeedSt :=
  match pol with
  | .E => { fd with chanE := c }
  | .H => { fd with chanH := c }

/-- `K_FE.NoiseDiode.Attenuator`: `__init__(self, parent=None, atten=0)`
stores only `self.atten`; the `parent` argument is **not** stored, so the
object has no `parent` attribute. -/
structure AttenuatorSt where
  atten : ℚ
deriving DecidableEq, Repr

/-- `K_FE.NoiseDiode`: `max = 384.6` K, `state = 0` (off) at construction,
an `Attenuator` built with `atten=-9.86`, and the cached `temp`. -/
structure NoiseDiodeSt where
  max : ℚ
  state : Nat
  atten : AttenuatorSt
  temp : ℚ
deriving DecidableEq, Repr

/-- `NoiseDiode.set_state(state)`: unconditional write. -/
def NoiseDiodeSt.set_state (nd : NoiseDiodeSt) (state : Nat) : NoiseDiodeSt :=
  { nd with state := state }

/-- `NoiseDiode.get_state()`: pure read. -/
def NoiseDiodeSt.get_state (nd : NoiseDiodeSt) : Nat := nd.state

/-- `NoiseDiode.get_temperature()`: recomputes and caches
`self.temp = self.max * RA.gain(self.atten.atten)` and returns it.
`g` is the external `Radio_Astronomy.gain`. -/
def NoiseDiodeSt.get_temperature (g : ℚ → ℚ) (nd : NoiseDiodeSt) :
    ℚ × NoiseDiodeSt :=
  let t := nd.max * g nd.atten.atten
  (t, { nd with temp := t })

/-- `Attenuator.set_atten(atten)`: assigns `self.atten = atten`, then
evaluates `self.parent.temp = self.parent.max * RA.gain(self.atten)`.
Since `__init__` never stored `parent`, the attribute access raises
`AttributeError` after the assignment to `atten` has taken effect, and the
owning diode's `temp` is never touched.  The attenuator lives inside its
diode's state, so the operation is modelled on `NoiseDiodeSt`. -/
def Attenuator.set_atten (nd : NoiseDiodeSt) (atten : ℚ) :
    Except PyErr Unit × NoiseDiodeSt :=
  (.error (.attributeError "parent"), { nd with atten := { atten := atten } })

/-- `Attenuator.get_atten()`: pure read. -/
def Attenuator.get_atten (nd : NoiseDiodeSt) : ℚ := nd.atten.atten

/-- `K_FE`: the `feed` dictionary with keys `1` and `2`, and the noise
diode.  (The `data['frequency']`/`data['bandwidth']` entries play no role
in any claim and are omitted.) -/
structure K_FE_St where
  feed1 : FeedSt
  feed2 : FeedSt
  nd : NoiseDiodeSt
deriving DecidableEq, Repr

/-- Dictionary lookup `self.feed[feed]`: `KeyError` outside `{1, 2}`. -/
def K_FE_St.feedGet (st : K_FE_St) (feed : Int) : Except PyErr FeedSt :=
  if feed = 1 then .ok st.feed1
  else if feed = 2 then .ok st.feed2
  else .error (.keyError feed)

/-- Dictionary entry update `self.feed[feed] = fd` (only used with
`feed ∈ {1,2}`, where the lookup succeeded). -/
def K_FE_St.feedSet (st : K_FE_St) (feed : Int) (fd : FeedSt) : K_FE_St :=
  if feed = 1 then { st with feed1 := fd }
  else if feed = 2 then { st with feed2 := fd }
  else st

/-- The state built by `K_FE.Feed.__init__(parent, number)`: load out at
320 K, both channels in mode `"W"` (`Channel.__init__` calls
`set_PM_mode('W')`), preamp bias on (`set_preamp_bias(state=1)`). -/
def initFeed (number : Int) : FeedSt :=
  { number := number
    load := .obj { state := 0, temp := 320 }
    chanE := { PM_mode := "W" }
    chanH := { PM_mode := "W" }
    preamp_state := 1 }

/-- The state built by `K_FE.__init__`: feeds 1 and 2, noise diode off with
attenuation −9.86 dB and `temp` cached by the constructor's
`get_temperature()` call. -/
def initState (g : ℚ → ℚ) : K_FE_St :=
  { feed1 := initFeed 1
    feed2 := initFeed 2
    nd := { max := 384.6, state := 0, atten := { atten := -9.86 },
            temp := 384.6 * g (-9.86) } }

/-! ## `K_FE` methods for Pyro clients -/

/-- The characters Python's `str.strip()` removes. -/
def isPySpace (c : Char) : Bool :=
  c = ' ' ∨ c = '\t' ∨ c = '\n' ∨ c = '\r' ∨ c = '\x0b' ∨ c = '\x0c'

/-- ASCII lower-casing of one character, as Python's `str.lower()` does on
the ASCII strings involved here. -/
def asciiLower (c : Char) : Char :=
  if 'A' ≤ c ∧ c ≤ 'Z' then Char.ofNat (c.toNat + 32) else c

/-- ASCII upper-casing of one character, as Python's `str.upper()` does on
the ASCII strings involved here. -/
def asciiUpper (c : Char) : Char :=
  if 'a' ≤ c ∧ c ≤ 'z' then Char.ofNat (c.toNat - 32) else c

/-- Python `s.strip()`: drop leading and trailing whitespace. -/
def pyStrip (s : String) : String :=
  ⟨((s.data.dropWhile isPySpace).reverse.dropWhile isPySpace).reverse⟩

/-- Python `s.lower()`. -/
def pyLower (s : String) : String := ⟨s.data.map asciiLower⟩

/-- Python `s.upper()`. -/
def pyUpper (s : String) : String := ⟨s.data.map asciiUpper⟩

/-- Python's `state.strip().lower()` normalization of the target string. -/
def normalizeTarget (s : String) : String := pyLower (pyStrip s)

/-- `K_FE.get_feed(feed)`: returns `self.feed[feed].load.get_state()`. -/
def get_feed (st : K_FE_St) (feed : Int) : Except PyErr Nat := do
  let fd ← st.feedGet feed
  fd.load.get_state

/-- `K_FE.set_feed(feed, state)`: if the stripped, lowercased target is
`'sky'` it executes `self.feed[feed].load = 0` (replacing the
`AmbientLoad` object with the integer 0); for `'load'` it assigns `1`;
then it evaluates `self.frontend.set_feed(feed, state)`, which raises
`AttributeError` because `K_FE` has no attribute `frontend`.  The pair
holds the raised error and the state after the partial mutation. -/
def set_feed (st : K_FE_St) (feed : Int) (state : String) :
    Except PyErr Unit × K_FE_St :=
  if normalizeTarget state = "sky" then
    match st.feedGet feed with
    | .error e => (.error e, st)
    | .ok fd =>
        (.error (.attributeError "frontend"),
         st.feedSet feed { fd with load := .intval 0 })
  else if normalizeTarget state = "load" then
    match st.feedGet feed with
    | .error e => (.error e, st)
    | .ok fd =>
        (.error (.attributeError "frontend"),
         st.feedSet feed { fd with load := .intval 1 })
  else
    (.error (.attributeError "frontend"), st)

/-- `K_FE.get_ND_state()`: returns `self.nd.state`. -/
def get_ND_state (st : K_FE_St) : Nat := st.nd.state

/-- `K_FE.set_ND_state(state)`: `set_state(1)` when truthy, else
`set_state(0)` (the flag is embedded as `Bool`). -/
def set_ND_state (st : K_FE_St) (state : Bool) : K_FE_St :=
  if state then { st with nd := st.nd.set_state 1 }
  else { st with nd := st.nd.set_state 0 }

/-- `K_FE.set_preamp_bias(feed, state)`: executes
`self.feed[feed].chan(feed, state)`.  For a valid feed ID, `chan` is a
dictionary, and calling it raises `TypeError`; the feed's
`preamp_state` is never written.  For an invalid ID the dictionary lookup
raises `KeyError` first. -/
def K_FE.set_preamp_bias (st : K_FE_St) (feed : Int) (_state : Nat) :
    Except PyErr Unit × K_FE_St :=
  match st.feedGet feed with
  | .error e => (.error e, st)
  | .ok _ => (.error (.typeError "dict object is not callable"), st)

/-! ## `Channel.read_PM` — radiometric simulation

`random.random()` draws are passed in as an explicit parameter
`r ∈ [0, 1)` (one draw per `read_PM` call). -/

/-- The operating temperature computed by `Channel.read_PM` when the
preamp bias is on: `T_load(feed,pol) + 0.1*r` with the load in,
`T_sky(feed,pol) + 0.5*r` with the load out, plus the diode temperature
`nd.max * gain(nd.atten.atten)` (via `nd.get_temperature()`) when the
noise diode is on.  Accessing `.state` on an `int`-valued load slot
raises `AttributeError`. -/
def T_op (g : ℚ → ℚ) (nd : NoiseDiodeSt) (fd : FeedSt) (pol : Pol) (r : ℚ) :
    Except PyErr ℚ := do
  let base ←
    match fd.load with
    | .intval _ => throw (.attributeError "state")
    | .obj l =>
        if l.state ≠ 0 then do
          let t ← T_load fd.number pol
          pure (t + 0.1 * r)
        else do
          let t ← T_sky fd.number pol
          pure (t + 0.5 * r)
  if nd.state ≠ 0 then
    return base + (nd.get_temperature g).fst
  else
    return base

/-- `Channel.read_PM()`: the preamp-off floor `1e-10`, or
`T_op / tsys_factor[feed][pol]`. -/
def read_PM (g : ℚ → ℚ) (nd : NoiseDiodeSt) (fd : FeedSt) (pol : Pol)
    (r : ℚ) : Except PyErr ℚ := do
  if fd.preamp_state = 0 then
    return 1 / 10 ^ 10
  else
    let top ← T_op g nd fd pol r
    let factor ← tsys_factor fd.number pol
    return top / factor

/-- `K_FE.read_PMs()`: iterates `sorted(self.feed)` = `[1, 2]` and, for
each feed, `sorted(chan)` = `["E", "H"]`, incrementing `number` from 0 and
appending `(number, read_PM())`.  The four `random.random()` draws are
passed as `r 0 .. r 3` in call order. -/
def read_PMs (g : ℚ → ℚ) (st : K_FE_St) (r : Fin 4 → ℚ) :
    Except PyErr (List (Nat × ℚ)) := do
  let v1 ← read_PM g st.nd st.feed1 .E (r 0)
  let v2 ← read_PM g st.nd st.feed1 .H (r 1)
  let v3 ← read_PM g st.nd st.feed2 .E (r 2)
  let v4 ← read_PM g st.nd st.feed2 .H (r 3)
  return [(1, v1), (2, v2), (3, v3), (4, v4)]

/-! ## `FEServer.set_WBDC` — legacy option-code dispatcher -/

/-- The responses `set_WBDC` can return: the option-12 report string, the
option-22 noise-diode state, or `None` (every mutation branch and the
unrecognized-option branch fall off the end of the method). -/
inductive WBDCResp where
  | text (s : String)
  | nat (n : Nat)
  | none
deriving DecidableEq, Repr

/-- `statenames[state]` with `statenames = ["sky", "load"]`; list indexing
raises `IndexError` out of range. -/
def statename (state : Nat) : Except PyErr String :=
  if state = 0 then .ok "sky"
  else if state = 1 then .ok "load"
  else .error .indexError

/-- One line of the option-12 report:
`"feed {} is on the {}\n".format(feed, statenames[self.feed[feed].load.state])`. -/
def feedLine (feed : Int) (slot : LoadSlot) : Except PyErr String := do
  match slot with
  | .intval _ => throw (.attributeError "state")
  | .obj l => do
      let s ← statename l.state
      return "feed " ++ toString feed ++ " is on the " ++ s ++ "\n"

/-- Helper for the `set_state` branches of options 13-16: writes the given
load state on the given feed. -/
def setLoadState (st : K_FE_St) (feed : Int) (s : Nat) :
    Except PyErr Unit × K_FE_St :=
  match st.feedGet feed with
  | .error e => (.error e, st)
  | .ok fd =>
      match fd.load.set_state s with
      | .error e => (.error e, st)
      | .ok slot => (.ok (), st.feedSet feed { fd with load := slot })

/-- Helper for options 25-28: `self.feed[n].set_preamp_bias(b)`. -/
def setFeedPreamp (st : K_FE_St) (feed : Int) (b : Nat) : K_FE_St :=
  match st.feedGet feed with
  | .error _ => st
  | .ok fd => st.feedSet feed (fd.set_preamp_bias b)

/-- Helper for options 390-393 and 400-403:
`self.feed[n].chan[pol].set_PM_mode(mode)`. -/
def setChanMode (st : K_FE_St) (feed : Int) (pol : Pol) (mode : String) :
    K_FE_St :=
  match st.feedGet feed with
  | .error _ => st
  | .ok fd => st.feedSet feed (fd.setChan pol ((fd.chan pol).set_PM_mode mode))

/-- `FEServer.set_WBDC(option)`: the `elif` chain over the legacy option
codes.  The final `else` branch only logs
`'set_WBDC: option %d not recognized'` and falls off the end, returning
`None` with the state untouched — the same observable outcome as every
recognized mutation code. -/
def set_WBDC (st : K_FE_St) (option : Int) : Except PyErr WBDCResp × K_FE_St :=
  if option = 12 then
    match feedLine 1 st.feed1.load with
    | .error e => (.error e, st)
    | .ok line1 =>
        match feedLine 2 st.feed2.load with
        | .error e => (.error e, st)
        | .ok line2 => (.ok (.text (line1 ++ line2)), st)
  else if option = 13 then
    let (r, st') := setLoadState st 1 0
    (r.map fun _ => .none, st')
  else if option = 14 then
    let (r, st') := setLoadState st 1 1
    (r.map fun _ => .none, st')
  else if option = 15 then
    let (r, st') := setLoadState st 2 0
    (r.map fun _ => .none, st')
  else if option = 16 then
    let (r, st') := setLoadState st 2 1
    (r.map fun _ => .none, st')
  else if option = 22 then
    (.ok (.nat st.nd.state), st)
  else if option = 23 then
    (.ok .none, { st with nd := st.nd.set_state 1 })
  else if option = 24 then
    (.ok .none, { st with nd := st.nd.set_state 0 })
  else if option = 25 then
    (.ok .none, setFeedPreamp st 1 1)
  else if option = 26 then
    (.ok .none, setFeedPreamp st 1 0)
  else if option = 27 then
    (.ok .none, setFeedPreamp st 2 1)
  else if option = 28 then
    (.ok .none, setFeedPreamp st 2 0)
  else if option = 390 then
    (.ok .none, setChanMode st 1 .E "W")
  else if option = 391 then
    (.ok .none, setChanMode st 1 .H "W")
  else if option = 392 then
    (.ok .none, setChanMode st 2 .E "W")
  else if option = 393 then
    (.ok .none, setChanMode st 2 .H "W")
  else if option = 400 then
    (.ok .none, setChanMode st 1 .E "dBm")
  else if option = 401 then
    (.ok .none, setChanMode st 1 .H "dBm")
  else if option = 402 then
    (.ok .none, setChanMode st 2 .E "dBm")
  else if option = 403 then
    (.ok .none, setChanMode st 2 .H "dBm")
  else
    (.ok .none, st)

/-- The option codes handled by a branch of `set_WBDC`'s `elif` chain. -/
def recognizedCodes : List Int :=
  [12, 13, 14, 15, 16, 22, 23, 24, 25, 26, 27, 28,
   390, 391, 392, 393, 400, 401, 402, 403]

/-! ## Client `K_4ch.Channel.PowerMeter` (`__init__.py` lines 372-400)

In the client, a feed's `number` is the 0-based index (`int(name[-1])-1`,
so 0 or 1). -/

/-- The polarization-code parse in `PowerMeter.__init__`: `"P1"`, `"E"`
(upper-cased comparison) map to `pol = 0`; `"P2"`, `"H"` to `pol = 1`;
anything else raises `RuntimeError` (embedded as `Except String`).  The
integer forms `1`/`2` of the argument are not modelled. -/
def PowerMeter.parsePol (pol : String) : Except String Nat :=
  if pyUpper pol = "P1" ∨ pyUpper pol = "E" then .ok 0
  else if pyUpper pol = "P2" ∨ pyUpper pol = "H" then .ok 1
  else .error "invalid polarization code"

/-- `self.number = 1 + feed.number*2 + self.pol` in
`PowerMeter.__init__`. -/
def PowerMeter.number (feedNumber pol : Nat) : Nat := 1 + feedNumber * 2 + pol

/-- `PowerMeter.set_mode(mode)`: the option code sent to the server,
`390 + self.number` for `mode.upper() == "W"`, `400 + self.number` for
`mode.lower() == "dbm"`; any other mode leaves `response` unbound
(`UnboundLocalError`), embedded as `Except String`. -/
def PowerMeter.modeCode (number : Nat) (mode : String) : Except String Int :=
  if pyUpper mode = "W" then .ok (390 + (number : Int))
  else if pyLower mode = "dbm" then .ok (400 + (number : Int))
  else .error "local variable response referenced before assignment"

/-- A concrete stand-in for the external `Radio_Astronomy.gain` used when a
closed statement needs a fully evaluated initial state. -/
def gConst : ℚ → ℚ := fun _ => 1

/-! ## Helper lemmas -/

/-- An `Except` value whose `isOk` test passes is an `.ok`. -/
theorem exists_ok_of_isOk {ε α : Type _} {e : Except ε α} (h : e.isOk) :
    ∃ v, e = .ok v := by
  cases e <;> simp [Except.isOk, Except.toBool] at h ⊢

/-- `read_PM` succeeds on any channel of a feed whose `number` is 1 or 2
and whose load slot holds an `AmbientLoad` object. -/
theorem read_PM_isOk (g : ℚ → ℚ) (nd : NoiseDiodeSt) (fd : FeedSt)
    (pol : Pol) (r : ℚ) (hn : fd.number = 1 ∨ fd.number = 2)
    (l : AmbientLoad) (hl : fd.load = .obj l) :
    ∃ v, read_PM g nd fd pol r = .ok v := by
  apply exists_ok_of_isOk
  by_cases hp : fd.preamp_state = 0
  · simp [read_PM, hp, Except.isOk, Except.toBool, pure, Except.pure]
  · rcases hn with h | h <;> cases pol <;>
      by_cases hs : l.state = 0 <;> by_cases hd : nd.state = 0 <;>
      simp [read_PM, T_op, T_sky, T_load, T_rx, tsys_factor, hl, hp, hs, hd,
            h, Except.isOk, Except.toBool, NoiseDiodeSt.get_temperature,
            bind, Except.bind, pure, Except.pure]

/-! ## Claim theorems -/

/-- Claim C1: the spec says `set_feed(f, target)` followed by `get_feed(f)`
returns the targeted state (0 for sky).  On the code, from the freshly
constructed front end, `set_feed(1, "sky")` assigns the bare integer 0 to
`feed[1].load` and then raises `AttributeError` (`K_FE` has no attribute
`frontend`); the subsequent `get_feed(1)` raises `AttributeError` because
an `int` has no `get_state` method, instead of returning 0. -/
theorem set_feed_then_get_feed_raises :
    (set_feed (initState gConst) 1 "sky").fst =
      .error (.attributeError "frontend") ∧
    (set_feed (initState gConst) 1 "sky").snd.feed1.load = .intval 0 ∧
    get_feed (set_feed (initState gConst) 1 "sky").snd 1 =
      .error (.attributeError "get_state") := by
  refine ⟨by decide, by decide, by decide⟩

/-- Claim C4: with a feed's preamp bias OFF (`preamp_state = 0`),
`read_PM` on each of the feed's channels returns the fixed floor value
`1e-10`, whatever the load slot, the noise-diode state, the jitter draw
and the gain function. -/
theorem read_PM_preamp_off_floor (g : ℚ → ℚ) (nd : NoiseDiodeSt)
    (fd : FeedSt) (pol : Pol) (r : ℚ) (h : fd.preamp_state = 0) :
    read_PM g nd fd pol r = .ok (1 / 10 ^ 10) := by
  simp [read_PM, h, pure, Except.pure]

/-- Witness for `read_PM_preamp_off_floor`: feed 1 of the initial state
with its preamp bias switched off, load in, noise diode on. -/
theorem read_PM_preamp_off_floor_witness :
    ((initFeed 1).set_preamp_bias 0).preamp_state = 0 ∧
    read_PM gConst ((initState gConst).nd.set_state 1)
        ((initFeed 1).set_preamp_bias 0) .E 0 = .ok (1 / 10 ^ 10) :=
  ⟨rfl, read_PM_preamp_off_floor gConst ((initState gConst).nd.set_state 1)
      ((initFeed 1).set_preamp_bias 0) .E 0 rfl⟩

/-- Claim C5: the spec says `Attenuator.set_atten(dB)` recomputes the
owning diode's temperature to `max_K * gain(dB)`.  On the code,
`Attenuator.__init__` never stores its `parent` argument, so `set_atten`
stores the new attenuation and then raises
`AttributeError: 'Attenuator' object has no attribute 'parent'`; the
diode's stored `temp` is left stale for every starting state and every
new attenuation. -/
theorem set_atten_raises_and_temp_stale (nd : NoiseDiodeSt) (a : ℚ) :
    (Attenuator.set_atten nd a).fst = .error (.attributeError "parent") ∧
    (Attenuator.set_atten nd a).snd.atten.atten = a ∧
    (Attenuator.set_atten nd a).snd.temp = nd.temp :=
  ⟨rfl, rfl, rfl⟩

/-- Claim C9: the spec says `K_FE.set_preamp_bias(feed, state)` delegates
to the feed's own `Feed.set_preamp_bias`.  On the code, the body is
`self.feed[feed].chan(feed, state)`, which calls the `chan` dictionary and
raises `TypeError`; at the failing input `(feed=1, state=0)` on the fresh
front end, feed 1's `preamp_state` stays 1 instead of becoming 0. -/
theorem set_preamp_bias_calls_dict :
    K_FE.set_preamp_bias (initState gConst) 1 0 =
      (.error (.typeError "dict object is not callable"), initState gConst) ∧
    (K_FE.set_preamp_bias (initState gConst) 1 0).snd.feed1.preamp_state = 1 := by
  refine ⟨rfl, rfl⟩

/-- Claim C2, counterexample: at the unknown option code 999 the claimed
distinguishable error outcome does not exist — `set_WBDC` returns `None`
with the state untouched, the very same outcome as the recognized
noise-diode-off code 24 produces from the initial state. -/
theorem set_WBDC_unknown_not_distinguishable :
    set_WBDC (initState gConst) 999 = (.ok .none, initState gConst) ∧
    set_WBDC (initState gConst) 999 = set_WBDC (initState gConst) 24 := by
  refine ⟨rfl, rfl⟩

/-- Claim C2, amended: for every option code outside the recognized set,
`set_WBDC` only logs the unrecognized option and returns `None` — the same
value the mutation codes return, so no error outcome is surfaced — and
leaves the whole front-end state unchanged. -/
theorem set_WBDC_unknown_code_no_mutation (st : K_FE_St) (opt : Int)
    (h : opt ∉ recognizedCodes) :
    set_WBDC st opt = (.ok .none, st) := by
  simp only [recognizedCodes, List.mem_cons, List.not_mem_nil, or_false,
             not_or] at h
  obtain ⟨h12, h13, h14, h15, h16, h22, h23, h24, h25, h26, h27, h28,
          h390, h391, h392, h393, h400, h401, h402, h403⟩ := h
  simp [set_WBDC, h12, h13, h14, h15, h16, h22, h23, h24, h25, h26, h27,
        h28, h390, h391, h392, h393, h400, h401, h402, h403]

/-- Witness for `set_WBDC_unknown_code_no_mutation` at option code 999. -/
theorem set_WBDC_unknown_code_no_mutation_witness :
    (999 : Int) ∉ recognizedCodes ∧
    set_WBDC (initState gConst) 999 = (.ok .none, initState gConst) :=
  ⟨by decide, set_WBDC_unknown_code_no_mutation (initState gConst) 999
      (by decide)⟩

/-- Claim C8: for every feed ID outside `{1, 2}`, `get_feed`, `set_feed`
(with a target normalizing to `"sky"` or `"load"`) and `set_preamp_bias`
fail immediately with the `InvalidFeedId` error (the `KeyError` of the
feed-dictionary lookup), leaving the state unchanged. -/
theorem invalid_feed_id_raises (st : K_FE_St) (f : Int) (b : Nat) (s : String)
    (hf1 : f ≠ 1) (hf2 : f ≠ 2)
    (hs : normalizeTarget s = "sky" ∨ normalizeTarget s = "load") :
    get_feed st f = .error (InvalidFeedId f) ∧
    set_feed st f s = (.error (InvalidFeedId f), st) ∧
    K_FE.set_preamp_bias st f b = (.error (InvalidFeedId f), st) := by
  rcases hs with h | h <;>
    simp [get_feed, set_feed, K_FE.set_preamp_bias, K_FE_St.feedGet,
          InvalidFeedId, hf1, hf2, h, bind, Except.bind]

/-- Witness for `invalid_feed_id_raises`: feed ID 3 with target `"sky"`. -/
theorem invalid_feed_id_raises_witness :
    ((3 : Int) ≠ 1 ∧ (3 : Int) ≠ 2 ∧ normalizeTarget "sky" = "sky") ∧
    (get_feed (initState gConst) 3 = .error (InvalidFeedId 3) ∧
     set_feed (initState gConst) 3 "sky" =
       (.error (InvalidFeedId 3), initState gConst) ∧
     K_FE.set_preamp_bias (initState gConst) 3 0 =
       (.error (InvalidFeedId 3), initState gConst)) :=
  ⟨⟨by decide, by decide, by decide⟩,
   invalid_feed_id_raises (initState gConst) 3 0 "sky" (by decide) (by decide)
     (.inl (by decide))⟩

/-- Claim C3: in every state whose feeds carry their dictionary keys 1 and
2 and whose load slots hold `AmbientLoad` objects, `read_PMs` returns
exactly 4 entries, indexed sequentially 1..4, in the fixed order
(feed 1, E), (feed 1, H), (feed 2, E), (feed 2, H). -/
theorem read_PMs_four_ordered (g : ℚ → ℚ) (st : K_FE_St) (r : Fin 4 → ℚ)
    (h1 : st.feed1.number = 1) (h2 : st.feed2.number = 2)
    (l1 l2 : AmbientLoad)
    (hl1 : st.feed1.load = .obj l1) (hl2 : st.feed2.load = .obj l2) :
    ∃ v1 v2 v3 v4 : ℚ,
      read_PM g st.nd st.feed1 .E (r 0) = .ok v1 ∧
      read_PM g st.nd st.feed1 .H (r 1) = .ok v2 ∧
      read_PM g st.nd st.feed2 .E (r 2) = .ok v3 ∧
      read_PM g st.nd st.feed2 .H (r 3) = .ok v4 ∧
      read_PMs g st r = .ok [(1, v1), (2, v2), (3, v3), (4, v4)] := by
  obtain ⟨v1, hv1⟩ := read_PM_isOk g st.nd st.feed1 .E (r 0) (.inl h1) l1 hl1
  obtain ⟨v2, hv2⟩ := read_PM_isOk g st.nd st.feed1 .H (r 1) (.inl h1) l1 hl1
  obtain ⟨v3, hv3⟩ := read_PM_isOk g st.nd st.feed2 .E (r 2) (.inr h2) l2 hl2
  obtain ⟨v4, hv4⟩ := read_PM_isOk g st.nd st.feed2 .H (r 3) (.inr h2) l2 hl2
  refine ⟨v1, v2, v3, v4, hv1, hv2, hv3, hv4, ?_⟩
  simp [read_PMs, hv1, hv2, hv3, hv4, bind, Except.bind, pure, Except.pure]

/-- Witness for `read_PMs_four_ordered`: the initial state with all four
jitter draws equal to 0. -/
theorem read_PMs_four_ordered_witness :
    ((initState gConst).feed1.number = 1 ∧
     (initState gConst).feed2.number = 2 ∧
     (initState gConst).feed1.load = .obj { state := 0, temp := 320 } ∧
     (initState gConst).feed2.load = .obj { state := 0, temp := 320 }) ∧
    (∃ v1 v2 v3 v4 : ℚ,
      read_PM gConst (initState gConst).nd (initState gConst).feed1 .E 0 =
        .ok v1 ∧
      read_PM gConst (initState gConst).nd (initState gConst).feed1 .H 0 =
        .ok v2 ∧
      read_PM gConst (initState gConst).nd (initState gConst).feed2 .E 0 =
        .ok v3 ∧
      read_PM gConst (initState gConst).nd (initState gConst).feed2 .H 0 =
        .ok v4 ∧
      read_PMs gConst (initState gConst) (fun _ => 0) =
        .ok [(1, v1), (2, v2), (3, v3), (4, v4)]) :=
  ⟨⟨rfl, rfl, rfl, rfl⟩,
   read_PMs_four_ordered gConst (initState gConst) (fun _ => 0) rfl rfl
     { state := 0, temp := 320 } { state := 0, temp := 320 } rfl rfl⟩

/-- Claim C6: from any state whose load slots hold objects (with feed 2's
load state in the valid range), dispatching 13 then 12 reports feed 1 on
the sky, 14 then 12 reports feed 1 on the load — the code-12 response
being the exact text `"feed {n} is on the {sky|load}\n"`, one line per
feed in ascending feed order — and 23 then 22 returns 1 (truthy) while
24 then 22 returns 0 (falsy). -/
theorem option_code_round_trips (st : K_FE_St) (l1 l2 : AmbientLoad)
    (hl1 : st.feed1.load = .obj l1) (hl2 : st.feed2.load = .obj l2)
    (hs2 : l2.state < 2) :
    (set_WBDC (set_WBDC st 13).snd 12).fst =
      .ok (.text ("feed 1 is on the sky\n" ++ "feed 2 is on the " ++
        (if l2.state = 0 then "sky" else "load") ++ "\n")) ∧
    (set_WBDC (set_WBDC st 14).snd 12).fst =
      .ok (.text ("feed 1 is on the load\n" ++ "feed 2 is on the " ++
        (if l2.state = 0 then "sky" else "load") ++ "\n")) ∧
    (set_WBDC (set_WBDC st 23).snd 22).fst = .ok (.nat 1) ∧
    (set_WBDC (set_WBDC st 24).snd 22).fst = .ok (.nat 0) := by
  have h2 : l2.state = 0 ∨ l2.state = 1 := by omega
  rcases h2 with h | h <;>
    simp [set_WBDC, setLoadState, feedLine, statename, K_FE_St.feedGet,
          K_FE_St.feedSet, LoadSlot.set_state, AmbientLoad.set_state,
          NoiseDiodeSt.set_state, hl1, hl2, h, bind, Except.bind, pure,
          Except.pure] <;>
    decide

/-- Witness for `option_code_round_trips`: the initial state (both loads
out). -/
theorem option_code_round_trips_witness :
    ((initState gConst).feed1.load = .obj { state := 0, temp := 320 } ∧
     (initState gConst).feed2.load = .obj { state := 0, temp := 320 } ∧
     (0 : Nat) < 2) ∧
    ((set_WBDC (set_WBDC (initState gConst) 13).snd 12).fst =
       .ok (.text ("feed 1 is on the sky\nfeed 2 is on the sky\n")) ∧
     (set_WBDC (set_WBDC (initState gConst) 14).snd 12).fst =
       .ok (.text ("feed 1 is on the load\nfeed 2 is on the sky\n")) ∧
     (set_WBDC (set_WBDC (initState gConst) 23).snd 22).fst = .ok (.nat 1) ∧
     (set_WBDC (set_WBDC (initState gConst) 24).snd 22).fst = .ok (.nat 0)) :=
  ⟨⟨rfl, rfl, by decide⟩,
   option_code_round_trips (initState gConst)
     { state := 0, temp := 320 } { state := 0, temp := 320 } rfl rfl
     (by decide)⟩

/-- Evaluation of `T_op` on a feed whose load slot holds an object, given
the receiver-temperature lookup for its number: the load-in/load-out base
with its jitter plus the diode temperature when the diode is on. -/
theorem T_op_obj_eq (g : ℚ → ℚ) (nd : NoiseDiodeSt) (fd : FeedSt) (pol : Pol)
    (r : ℚ) (l : AmbientLoad) (hl : fd.load = .obj l) (trx : ℚ)
    (htrx : T_rx fd.number pol = .ok trx) :
    T_op g nd fd pol r = .ok
      ((if l.state ≠ 0 then trx + T_amb + 0.1 * r
        else T_CBG + trx + T_rs + T_atm + 0.5 * r) +
       (if nd.state ≠ 0 then nd.max * g nd.atten.atten else 0)) := by
  by_cases hs : l.state = 0 <;> by_cases hd : nd.state = 0 <;>
    simp [T_op, T_sky, T_load, hl, hs, hd, htrx, bind, Except.bind, pure,
          Except.pure, NoiseDiodeSt.get_temperature]

/-- Claim C7: for every channel of a feed with preamp bias on and a fixed
load slot, switching the noise diode from off to on changes the simulated
operating temperature `T_op` by the diode's current temperature
`max * gain(atten)` (the value of `get_temperature`), to within the jitter
bound — 0.1 K with the load in, 0.5 K with the load out. -/
theorem noise_diode_additivity (g : ℚ → ℚ) (nd : NoiseDiodeSt) (fd : FeedSt)
    (pol : Pol) (l : AmbientLoad) (hl : fd.load = .obj l)
    (hn : fd.number = 1 ∨ fd.number = 2) (hpre : fd.preamp_state ≠ 0)
    (r1 r2 : ℚ) (hr1 : 0 ≤ r1) (hr1' : r1 < 1) (hr2 : 0 ≤ r2)
    (hr2' : r2 < 1) :
    ∃ t1 t2 : ℚ,
      T_op g (nd.set_state 1) fd pol r1 = .ok t1 ∧
      T_op g (nd.set_state 0) fd pol r2 = .ok t2 ∧
      |t1 - t2 - (nd.get_temperature g).fst| <
        (if l.state ≠ 0 then 0.1 else 0.5) := by
  obtain ⟨trx, htrx⟩ : ∃ t, T_rx fd.number pol = .ok t := by
    rcases hn with h | h <;> cases pol <;> simp [T_rx, h]
  refine ⟨_, _, T_op_obj_eq g (nd.set_state 1) fd pol r1 l hl trx htrx,
          T_op_obj_eq g (nd.set_state 0) fd pol r2 l hl trx htrx, ?_⟩
  have hone : (1 : Nat) ≠ 0 := by decide
  by_cases hs : l.state = 0 <;>
    simp [NoiseDiodeSt.set_state, NoiseDiodeSt.get_temperature, hs, hone] <;>
    rw [abs_lt] <;> constructor <;> linarith

/-- Witness for `noise_diode_additivity`: feed 1's E channel of the initial
state with both jitter draws 0. -/
theorem noise_diode_additivity_witness :
    ((initFeed 1).load = .obj { state := 0, temp := 320 } ∧
     ((initFeed 1).number = 1 ∨ (initFeed 1).number = 2) ∧
     (initFeed 1).preamp_state ≠ 0 ∧
     (0 : ℚ) ≤ 0 ∧ (0 : ℚ) < 1) ∧
    (∃ t1 t2 : ℚ,
      T_op gConst ((initState gConst).nd.set_state 1) (initFeed 1) .E 0 =
        .ok t1 ∧
      T_op gConst ((initState gConst).nd.set_state 0) (initFeed 1) .E 0 =
        .ok t2 ∧
      |t1 - t2 - ((initState gConst).nd.get_temperature gConst).fst| <
        (if ({ state := 0, temp := 320 } : AmbientLoad).state ≠ 0
         then 0.1 else 0.5)) :=
  ⟨⟨rfl, .inl rfl, by decide, by decide, by decide⟩,
   noise_diode_additivity gConst (initState gConst).nd (initFeed 1) .E
     { state := 0, temp := 320 } rfl (.inl rfl) (by decide) 0 0
     (by decide) (by decide) (by decide) (by decide)⟩

/-- Claim C10: the client `PowerMeter` on feed index `f` and polarization
index `p` has channel number `1 + 2*f + p ∈ {1,..,4}` (`E`/`P1` parse to
index 0 and `H`/`P2` to 1), so `set_mode` sends option code `390+number ∈
{391,..,394}` for Watts and `400+number ∈ {401,..,404}` for dBm; the code
for client channel (feed index 0, E), 391, is mapped by the dispatcher to
server channel (feed 1, H) — feed 1's E channel is untouched — and the
codes for (feed index 1, H), 394 and 404, fall to the unrecognized branch,
leaving the state unchanged. -/
theorem powermeter_channel_codes (f p : Nat) (hf : f < 2) (hp : p < 2)
    (st : K_FE_St) :
    (1 ≤ PowerMeter.number f p ∧ PowerMeter.number f p ≤ 4) ∧
    PowerMeter.number f p = 1 + 2 * f + p ∧
    PowerMeter.modeCode (PowerMeter.number f p) "W" =
      .ok (390 + (PowerMeter.number f p : Int)) ∧
    (390 + (PowerMeter.number f p : Int)) ∈ ([391, 392, 393, 394] : List Int) ∧
    PowerMeter.modeCode (PowerMeter.number f p) "dbm" =
      .ok (400 + (PowerMeter.number f p : Int)) ∧
    (400 + (PowerMeter.number f p : Int)) ∈ ([401, 402, 403, 404] : List Int) ∧
    PowerMeter.parsePol "E" = .ok 0 ∧
    PowerMeter.parsePol "P1" = .ok 0 ∧
    PowerMeter.parsePol "H" = .ok 1 ∧
    PowerMeter.parsePol "P2" = .ok 1 ∧
    (set_WBDC st (390 + (PowerMeter.number 0 0 : Int))).fst = .ok .none ∧
    (set_WBDC st (390 + (PowerMeter.number 0 0 : Int))).snd.feed1.chanH =
      { PM_mode := "W" } ∧
    (set_WBDC st (390 + (PowerMeter.number 0 0 : Int))).snd.feed1.chanE =
      st.feed1.chanE ∧
    set_WBDC st (390 + (PowerMeter.number 1 1 : Int)) = (.ok .none, st) ∧
    set_WBDC st (400 + (PowerMeter.number 1 1 : Int)) = (.ok .none, st) := by
  interval_cases f <;> interval_cases p <;>
    exact ⟨by decide, by decide, by decide, by decide, by decide, by decide,
           by decide, by decide, by decide, by decide, rfl, rfl, rfl, rfl,
           rfl⟩

/-- Witness for `powermeter_channel_codes`: feed index 0, polarization
index 0, against the initial server state. -/
theorem powermeter_channel_codes_witness :
    ((0 : Nat) < 2 ∧
     (1 ≤ PowerMeter.number 0 0 ∧ PowerMeter.number 0 0 ≤ 4) ∧
     PowerMeter.modeCode (PowerMeter.number 0 0) "W" =
       .ok (390 + (PowerMeter.number 0 0 : Int)) ∧
     (set_WBDC (initState gConst)
        (390 + (PowerMeter.number 0 0 : Int))).snd.feed1.chanH =
       { PM_mode := "W" } ∧
     set_WBDC (initState gConst) (390 + (PowerMeter.number 1 1 : Int)) =
       (.ok .none, initState gConst)) :=
  ⟨by decide,
   (powermeter_channel_codes 0 0 (by decide) (by decide)
      (initState gConst)).1,
   (powermeter_channel_codes 0 0 (by decide) (by decide)
      (initState gConst)).2.2.1,
   (powermeter_channel_codes 0 0 (by decide) (by decide)
      (initState gConst)).2.2.2.2.2.2.2.2.2.2.2.2.1,
   (powermeter_channel_codes 0 0 (by decide) (by decide)
      (initState gConst)).2.2.2.2.2.2.2.2.2.2.2.2.2.2⟩
